import Mathlib

/-!
Shallow embedding of the GitHub-Notion sync engine (SyncManager, DataMapper,
GitHubClient.deleteIssue) together with theorems about its planner and
executor.  JS strings are Lean `String` (lists of characters where parsing is
involved), JS timestamps are `Nat` milliseconds, nullable JS values are
`Option`, and fallible asynchronous calls are `Except String`-valued functions
supplied by an environment record.
-/

/-- JS truthiness for a nullable string field: `null`, `undefined` and the
empty string are falsy. -/
def truthy : Option String → Bool
  | none => false
  | some s => !s.isEmpty

/-- A Notion work item (bug or task variant), as consumed by SyncManager. -/
structure WorkItem where
  id : Option String
  title : Option String
  status : String
  typeField : Option String
  module : Option String
  itemType : String
  notionId : String
  issueLink : Option String
  branchUrl : Option String
  pullRequestStatus : Option String
  pullRequestLink : Option String
  lastModified : Option Nat
  deriving DecidableEq, Repr

/-- A GitHub issue as fetched by the sync engine. -/
structure Issue where
  title : String
  state : String
  body : Option String
  githubUrl : String
  githubId : Nat
  repository : String
  updated_at : Option Nat
  deriving DecidableEq, Repr

/-- A GitHub pull request as fetched by the sync engine. -/
structure PullRequest where
  state : String
  merged : Bool
  updatedAt : Int
  githubUrl : String
  repository : String
  deriving DecidableEq, Repr

/-- Target of a sync operation: a GitHub issue or a pull request. -/
inductive OpTarget where
  | issue (i : Issue)
  | pr (p : PullRequest)
  deriving DecidableEq, Repr

/-- DataMapper.createSyncOperation: the operation record built by the planner.
The wall-clock `timestamp` field of the source is not modelled. -/
structure SyncOperation where
  action : String
  source : Option WorkItem
  target : Option OpTarget
  reason : String
  deriving DecidableEq, Repr

def createSyncOperation (action : String) (source : Option WorkItem)
    (target : Option OpTarget) (reason : String) : SyncOperation :=
  ⟨action, source, target, reason⟩

/-- DataMapper.mapNotionStatusToGitHubState: table lookup with default
`"open"`, mirroring the lookup with fallback in the source. -/
def statusMapping : List (String × String) :=
  [("Reported", "open"), ("Blocked", "open"), ("In Progress", "open"),
   ("In Review", "open"), ("Rejected", "closed"), ("Fixed", "closed")]

def mapNotionStatusToGitHubState (notionStatus : String) : String :=
  (statusMapping.lookup notionStatus).getD "open"

/-- DataMapper.mapGitHubStateToNotionStatus. -/
def mapGitHubStateToNotionStatus (githubState : String)
    (currentNotionStatus : String) : String :=
  if githubState = "closed" then
    if ["Fixed", "Rejected"].contains currentNotionStatus then
      currentNotionStatus
    else
      "Fixed"
  else
    if githubState = "open" && ["Fixed", "Rejected"].contains currentNotionStatus then
      "Reported"
    else
      currentNotionStatus

/-- DataMapper.validateBugForSync result. -/
structure Validation where
  isValid : Bool
  errors : List String
  deriving DecidableEq, Repr

/-- DataMapper.validateBugForSync: a bug needs truthy id, title, module, type. -/
def validateBugForSync (bug : WorkItem) : Validation :=
  let errors :=
    (if !truthy bug.id then ["Bug ID is missing"] else []) ++
    (if !truthy bug.title then ["Bug title is missing"] else []) ++
    (if !truthy bug.module then ["Module is missing"] else []) ++
    (if !truthy bug.typeField then ["Type is missing"] else [])
  ⟨errors.isEmpty, errors⟩

/-! ### DataMapper.extractBugIdFromTitle

The source matches the JS regexes
`^(CBUG-\d+|TSK-\d+):\s+(.+)$` and `^\[(\w+)\]\/(CBUG-\d+)\s+(.+)$`
against the title.  We embed them as character-list parsers: `\d` is
`Char.isDigit`, `\w` is `[A-Za-z0-9_]`, `\s` is ASCII whitespace, `.` is any
character except a newline, and `$` (no multiline flag) is end of input. -/

def isJsWord (c : Char) : Bool := c.isAlphanum || c = '_'

def isJsSpace (c : Char) : Bool :=
  c = ' ' || c = '\t' || c = '\n' || c = '\r' || c = '\x0b' || c = '\x0c'

/-- Regex `(.+)$`: a nonempty remainder with no newline. -/
def dotPlusEnd (l : List Char) : Bool := !l.isEmpty && l.all (fun c => c ≠ '\n')

/-- Regex `\s*(.+)$` viewed with full backtracking: some (possibly empty) whitespace
and then a nonempty newline-free remainder. -/
def spacesThenBody : List Char → Bool
  | [] => false
  | c :: cs => dotPlusEnd (c :: cs) || (isJsSpace c && spacesThenBody cs)

/-- Regex `\s+(.+)$`: at least one whitespace character, then a body. -/
def wsPlusBody : List Char → Bool
  | [] => false
  | c :: cs => isJsSpace c && spacesThenBody cs

/-- Strip an expected literal from the front of the input. -/
def stripPre : List Char → List Char → Option (List Char)
  | [], l => some l
  | _ :: _, [] => none
  | p :: ps, c :: cs => if c = p then stripPre ps cs else none

/-- One alternative of regex `^(<pre>\d+):\s+(.+)$`, returning the matched id. -/
def parseIdColonForm (pre : List Char) (l : List Char) : Option (List Char) :=
  match stripPre pre l with
  | none => none
  | some r =>
    let ds := r.takeWhile Char.isDigit
    if ds.isEmpty then none
    else
      match r.dropWhile Char.isDigit with
      | ':' :: r2 => if wsPlusBody r2 then some (pre ++ ds) else none
      | _ => none

def cbugLit : List Char := ['C', 'B', 'U', 'G', '-']
def tskLit : List Char := ['T', 'S', 'K', '-']

/-- Regex `^\[(\w+)\]\/(CBUG-\d+)\s+(.+)$`, returning the second capture group. -/
def parseBracketForm (l : List Char) : Option (List Char) :=
  match l with
  | '[' :: r =>
    let w := r.takeWhile isJsWord
    if w.isEmpty then none
    else
      match r.dropWhile isJsWord with
      | ']' :: '/' :: r2 =>
        match stripPre cbugLit r2 with
        | none => none
        | some r3 =>
          let ds := r3.takeWhile Char.isDigit
          if ds.isEmpty then none
          else if wsPlusBody (r3.dropWhile Char.isDigit) then
            some (cbugLit ++ ds)
          else none
      | _ => none
  | _ => none

/-- The character-level matcher: new colon format first (alternation `CBUG-`
then `TSK-`), then the old bracket format, else `null`. -/
def extractCore (l : List Char) : Option (List Char) :=
  match parseIdColonForm cbugLit l with
  | some id => some id
  | none =>
    match parseIdColonForm tskLit l with
    | some id => some id
    | none => parseBracketForm l

/-- DataMapper.extractBugIdFromTitle, as `extractCore` over the title
characters. -/
def extractBugIdFromTitle (title : String) : Option String :=
  (extractCore title.data).map String.mk

/-! ### SyncManager: picking the most relevant pull request -/

/-- Priority inside the comparator of SyncManager.getMostRelevantPR:
open = 3, merged = 2, closed but not merged = 1. -/
def getStatePriority (pr : PullRequest) : Int :=
  if pr.state = "open" then 3
  else if pr.merged then 2
  else 1

/-- The JS comparator passed to `Array.prototype.sort`: priority difference
first (descending), then `updatedAt` difference (descending). -/
def prCompare (a b : PullRequest) : Int :=
  let priorityDiff := getStatePriority b - getStatePriority a
  if priorityDiff ≠ 0 then priorityDiff
  else b.updatedAt - a.updatedAt

/-- Relation: `a` sorts no later than `b` under the comparator (value ≤ 0).
`Array.prototype.sort` is a stable sort for this total preorder, so the JS
sort result coincides with a stable insertion sort under this relation. -/
def prLE (a b : PullRequest) : Prop := prCompare a b ≤ 0

instance : DecidableRel prLE := fun a b =>
  inferInstanceAs (Decidable (prCompare a b ≤ 0))

/-- SyncManager.getMostRelevantPR: stable-sort the PRs by the comparator and
take the first element; `null` for an empty input. -/
def getMostRelevantPR (prs : List PullRequest) : Option PullRequest :=
  if prs.isEmpty then none
  else (List.insertionSort prLE prs).head?

/-! ### SyncManager: planner -/

/-- SyncManager.issueHasBranchLink: false when the body or the branch URL is
falsy, else substring containment of the URL in the body. -/
def listContainsSeg (hay needle : List Char) : Bool :=
  needle.isPrefixOf hay ||
    (match hay with
     | [] => false
     | _ :: t => listContainsSeg t needle)

def issueHasBranchLink (issue : Issue) (branchUrl : Option String) : Bool :=
  match issue.body, branchUrl with
  | some body, some url =>
    if body.isEmpty || url.isEmpty then false
    else listContainsSeg body.data url.data
  | _, _ => false

/-- Modelled from the spec: `DataMapper.mapGitHubPRStateToNotionStatus` is
called by the planner but is not among the provided sources.  Spec section
4.3: merged → "Merged", state == "open" → "Open", otherwise (closed, not
merged) → "Closed". -/
def mapGitHubPRStateToNotionStatus (pr : PullRequest) : String :=
  if pr.merged then "Merged"
  else if pr.state = "open" then "Open"
  else "Closed"

/-- Modelled from the spec: `DataMapper.needsPRStatusUpdate` is called by the
planner but is not among the provided sources.  Spec section 4.4 step 5:
derive the expected PR status and compare with the stored one; a mismatch
requires an update. -/
def needsPRStatusUpdate (currentStatus : Option String) (pr : PullRequest) : Bool :=
  currentStatus ≠ some (mapGitHubPRStateToNotionStatus pr)

/-- Modelled from the spec: `DataMapper.needsPRLinkUpdate` is called by the
planner but is not among the provided sources.  Spec section 4.4 step 5:
compare the stored PR link with the PR url; a mismatch requires an update. -/
def needsPRLinkUpdate (currentLink : Option String) (pr : PullRequest) : Bool :=
  currentLink ≠ some pr.githubUrl

/-- Modelled from the spec: `DataMapper.createPRSyncOperation` is called by
the planner but is not among the provided sources.  It builds the PR status
update operation, dispatched by the executor under the action name
`update_notion_pr`. -/
def createPRSyncOperation (item : WorkItem) (pr : PullRequest)
    (reason : String) : SyncOperation :=
  createSyncOperation "update_notion_pr" (some item) (some (OpTarget.pr pr)) reason

/-- SyncManager.determinePRSyncOperations. -/
def determinePRSyncOperations (item : WorkItem) (prs : List PullRequest) :
    List SyncOperation :=
  match getMostRelevantPR prs with
  | some mostRelevantPR =>
    (if needsPRStatusUpdate item.pullRequestStatus mostRelevantPR then
      [createPRSyncOperation item mostRelevantPR "PR status mismatch"]
    else []) ++
    (if needsPRLinkUpdate item.pullRequestLink mostRelevantPR then
      [createSyncOperation "update_notion_pr_link" (some item)
        (some (OpTarget.pr mostRelevantPR)) "PR link mismatch"]
    else [])
  | none =>
    if truthy item.pullRequestStatus && item.pullRequestStatus ≠ some "None" then
      if truthy item.branchUrl then
        []
      else
        [createSyncOperation "clear_notion_pr" (some item) none
          "No pull request found, clearing PR status"]
    else []

/-- Missing timestamps collapse to epoch zero: `new Date(x || 0)`. -/
def jsDate (t : Option Nat) : Nat := t.getD 0

/-- SyncManager.determineUpdateOperations: bidirectional status reconciliation
with last-writer-wins tie-breaking when both sides disagree. -/
def determineUpdateOperations (bug : WorkItem) (issue : Issue) :
    List SyncOperation :=
  let expectedGitHubState := mapNotionStatusToGitHubState bug.status
  let githubNeedsUpdate := issue.state ≠ expectedGitHubState
  let expectedNotionStatus := mapGitHubStateToNotionStatus issue.state bug.status
  let notionNeedsUpdate := bug.status ≠ expectedNotionStatus
  if githubNeedsUpdate ∧ notionNeedsUpdate then
    let notionUpdated := jsDate bug.lastModified
    let githubUpdated := jsDate issue.updated_at
    if notionUpdated ≥ githubUpdated then
      [createSyncOperation "update_github_state" (some bug)
        (some (OpTarget.issue issue))
        "Notion status updated more recently, requires GitHub state change"]
    else
      [createSyncOperation "update_notion_status" (some bug)
        (some (OpTarget.issue issue))
        "GitHub state updated more recently, requires Notion status change"]
  else if githubNeedsUpdate then
    [createSyncOperation "update_github_state" (some bug)
      (some (OpTarget.issue issue)) "Notion status requires GitHub state change"]
  else if notionNeedsUpdate then
    [createSyncOperation "update_notion_status" (some bug)
      (some (OpTarget.issue issue)) "GitHub state requires Notion status change"]
  else []

/-- One iteration of the per-item loop of SyncManager.determineSyncOperations:
the operations contributed by a single `bugMap` entry. -/
def planForItem (issueMap : List (String × Issue))
    (prMap : List (String × List PullRequest))
    (itemId : String) (item : WorkItem) : List SyncOperation :=
  if item.itemType = "task" then
    determinePRSyncOperations item ((prMap.lookup itemId).getD [])
  else if !(validateBugForSync item).isValid then
    []
  else
    (match issueMap.lookup itemId with
     | none =>
       [createSyncOperation "create" (some item) none
         "Item exists in Notion but not in GitHub"]
     | some correspondingIssue =>
       determineUpdateOperations item correspondingIssue ++
       (if !truthy item.issueLink ||
           item.issueLink ≠ some correspondingIssue.githubUrl then
         [createSyncOperation "update_notion_link" (some item)
           (some (OpTarget.issue correspondingIssue))
           "Notion item missing or has incorrect GitHub issue link"]
       else []) ++
       (if truthy item.branchUrl &&
           !issueHasBranchLink correspondingIssue item.branchUrl then
         [createSyncOperation "update_github_branch" (some item)
           (some (OpTarget.issue correspondingIssue))
           "GitHub issue missing branch link from Notion"]
       else [])) ++
    determinePRSyncOperations item ((prMap.lookup itemId).getD [])

/-- SyncManager.determineSyncOperations: the per-item loop over `bugMap`
followed by the orphaned-issue loop over `issueMap`. -/
def determineSyncOperations (bugMap : List (String × WorkItem))
    (issueMap : List (String × Issue))
    (prMap : List (String × List PullRequest)) : List SyncOperation :=
  (bugMap.flatMap fun p => planForItem issueMap prMap p.1 p.2) ++
  (issueMap.flatMap fun p =>
    if (bugMap.lookup p.1).isSome then []
    else
      [createSyncOperation "delete" none (some (OpTarget.issue p.2))
        "Issue exists in GitHub but corresponding item was deleted from Notion"])

/-! ### SyncManager: executor

External calls are modelled by an environment of `Except String`-valued
functions; `.error` is a thrown/rejected promise, `.ok` a resolved one.
Call payloads that the control flow never inspects (issue bodies, comment
text) are reduced to the arguments that identify the call. -/

/-- The result value a single handler resolves with, reduced to what the
executor records.  `deleteRes` mirrors the object literal returned by
SyncManager.deleteGitHubIssue. -/
inductive OpResult where
  | createdIssue (issue : Issue)
  | simple
  | deleteRes (success : Bool) (error : Option String)
  deriving DecidableEq, Repr

/-- External calls observable in a handler trace. -/
inductive Call where
  | addComment (repository : String) (issueNumber : Nat) (text : String)
  | deleteIssue (repository : String) (issueNumber : Nat)
  deriving DecidableEq, Repr

/-- Outcomes of the external store calls made by the executor handlers. -/
structure Env where
  getRepositoryForModule : Option String → Except String String
  ghCreateIssue : String → WorkItem → Option String → Except String Issue
  ghUpdateIssueState : String → Nat → String → Except String Unit
  ghAddComment : String → Nat → String → Except String Unit
  ghUpdateIssueBody : String → Nat → Except String Unit
  ghDeleteIssue : String → Nat → Except String Unit
  notionUpdateBugIssueLink : String → String → Except String Unit
  notionUpdateTaskIssueLink : String → String → Except String Unit
  notionUpdateBugStatus : String → String → Except String Unit
  notionUpdateTaskStatus : String → String → Except String Unit
  notionUpdateBugProperties : String → Option String → Option String → Except String Unit
  notionUpdateTaskProperties : String → Option String → Option String → Except String Unit
  notionUpdateBugPullRequestLink : String → String → Except String Unit

/-- SyncManager.createGitHubIssue: resolve the repository for the module
(throws for unknown modules), create the issue (throws propagate), then
best-effort update of the Notion link (failure only logged). -/
def createGitHubIssue (env : Env) (bug : WorkItem) : Except String OpResult :=
  match env.getRepositoryForModule bug.module with
  | .error e => .error e
  | .ok repository =>
    match env.ghCreateIssue repository bug bug.branchUrl with
    | .error e => .error e
    | .ok issue =>
      match env.notionUpdateBugIssueLink bug.notionId issue.githubUrl with
      | _ => .ok (OpResult.createdIssue issue)

/-- SyncManager.updateGitHubIssueState: set the state, then add an
explanatory comment; both awaited, both failures propagate. -/
def updateGitHubIssueState (env : Env) (bug : WorkItem) (issue : Issue) :
    Except String OpResult :=
  let newState := mapNotionStatusToGitHubState bug.status
  match env.ghUpdateIssueState issue.repository issue.githubId newState with
  | .error e => .error e
  | .ok _ =>
    match env.ghAddComment issue.repository issue.githubId
        "Issue state updated based on Notion bug status" with
    | .error e => .error e
    | .ok _ => .ok OpResult.simple

/-- SyncManager.updateNotionBugStatus. -/
def updateNotionBugStatus (env : Env) (item : WorkItem) (issue : Issue) :
    Except String OpResult :=
  let newStatus := mapGitHubStateToNotionStatus issue.state item.status
  (if item.itemType = "task" then
    env.notionUpdateTaskStatus item.notionId newStatus
  else
    env.notionUpdateBugStatus item.notionId newStatus).map fun _ => OpResult.simple

/-- SyncManager.updateNotionBugLink. -/
def updateNotionBugLink (env : Env) (item : WorkItem) (issue : Issue) :
    Except String OpResult :=
  (if item.itemType = "task" then
    env.notionUpdateTaskIssueLink item.notionId issue.githubUrl
  else
    env.notionUpdateBugIssueLink item.notionId issue.githubUrl).map fun _ => OpResult.simple

/-- SyncManager.updateGitHubIssueBranchLink: rewrites the issue body to carry
the branch link and pushes it; the body text surgery is pure string
formatting not modelled here, and the only failure source is the body update
call, which is rethrown. -/
def updateGitHubIssueBranchLink (env : Env) (_bug : WorkItem) (issue : Issue) :
    Except String OpResult :=
  (env.ghUpdateIssueBody issue.repository issue.githubId).map fun _ => OpResult.simple

/-- The comment SyncManager.deleteGitHubIssue posts before closing. -/
def deleteCommentText : String :=
  "This issue is being deleted because the corresponding bug was removed from Notion."

/-- SyncManager.deleteGitHubIssue: one try block posts the comment and then
closes-and-locks the issue; any error from either call is caught and turned
into a normally-returned result with `success := false`.  The second
component records which external calls were issued. -/
def deleteGitHubIssue (env : Env) (issue : Issue) :
    Except String OpResult × List Call :=
  match env.ghAddComment issue.repository issue.githubId deleteCommentText with
  | .error e =>
    (.ok (OpResult.deleteRes false (some e)),
     [Call.addComment issue.repository issue.githubId deleteCommentText])
  | .ok _ =>
    match env.ghDeleteIssue issue.repository issue.githubId with
    | .error e =>
      (.ok (OpResult.deleteRes false (some e)),
       [Call.addComment issue.repository issue.githubId deleteCommentText,
        Call.deleteIssue issue.repository issue.githubId])
    | .ok _ =>
      (.ok (OpResult.deleteRes true none),
       [Call.addComment issue.repository issue.githubId deleteCommentText,
        Call.deleteIssue issue.repository issue.githubId])

/-- SyncManager.updateNotionPRProperties. -/
def updateNotionPRProperties (env : Env) (item : WorkItem) (pr : PullRequest) :
    Except String OpResult :=
  let prStatus := mapGitHubPRStateToNotionStatus pr
  (if item.itemType = "task" then
    env.notionUpdateTaskProperties item.notionId (some prStatus) (some pr.githubUrl)
  else
    env.notionUpdateBugProperties item.notionId (some prStatus) (some pr.githubUrl)).map
    fun _ => OpResult.simple

/-- SyncManager.updateNotionPRLink. -/
def updateNotionPRLink (env : Env) (item : WorkItem) (pr : PullRequest) :
    Except String OpResult :=
  (if item.itemType = "task" then
    env.notionUpdateTaskProperties item.notionId none (some pr.githubUrl)
  else
    env.notionUpdateBugPullRequestLink item.notionId pr.githubUrl).map
    fun _ => OpResult.simple

/-- SyncManager.clearNotionPRProperties. -/
def clearNotionPRProperties (env : Env) (item : WorkItem) :
    Except String OpResult :=
  (if item.itemType = "task" then
    env.notionUpdateTaskProperties item.notionId (some "None") none
  else
    env.notionUpdateBugProperties item.notionId (some "None") none).map
    fun _ => OpResult.simple

/-- SyncManager.executeOperation: dispatch on the action; an unknown action
throws. The operand patterns the source dereferences unconditionally are
surfaced as errors for absent operands. -/
def executeOperation (env : Env) (operation : SyncOperation) :
    Except String OpResult :=
  if operation.action = "create" then
    match operation.source with
    | some bug => createGitHubIssue env bug
    | none => .error "missing operation source"
  else if operation.action = "update_github_state" then
    match operation.source, operation.target with
    | some bug, some (OpTarget.issue issue) => updateGitHubIssueState env bug issue
    | _, _ => .error "missing operation operands"
  else if operation.action = "update_notion_status" then
    match operation.source, operation.target with
    | some item, some (OpTarget.issue issue) => updateNotionBugStatus env item issue
    | _, _ => .error "missing operation operands"
  else if operation.action = "update_notion_link" then
    match operation.source, operation.target with
    | some item, some (OpTarget.issue issue) => updateNotionBugLink env item issue
    | _, _ => .error "missing operation operands"
  else if operation.action = "update_github_branch" then
    match operation.source, operation.target with
    | some bug, some (OpTarget.issue issue) => updateGitHubIssueBranchLink env bug issue
    | _, _ => .error "missing operation operands"
  else if operation.action = "delete" then
    match operation.target with
    | some (OpTarget.issue issue) => (deleteGitHubIssue env issue).1
    | _ => .error "missing operation operands"
  else if operation.action = "update_notion_pr" then
    match operation.source, operation.target with
    | some item, some (OpTarget.pr pr) => updateNotionPRProperties env item pr
    | _, _ => .error "missing operation operands"
  else if operation.action = "update_notion_pr_link" then
    match operation.source, operation.target with
    | some item, some (OpTarget.pr pr) => updateNotionPRLink env item pr
    | _, _ => .error "missing operation operands"
  else if operation.action = "clear_notion_pr" then
    match operation.source with
    | some item => clearNotionPRProperties env item
    | none => .error "missing operation source"
  else
    .error ("Unknown operation: " ++ operation.action)

/-- One recorded entry of SyncResult.operations: the spread of the operation
plus `result`/`error` and the success flag. -/
structure OperationRecord where
  op : SyncOperation
  result : Option OpResult
  error : Option String
  success : Bool
  deriving DecidableEq, Repr

/-- SyncManager.executeSyncOperations result shape. -/
structure SyncResult where
  created : Nat
  updated : Nat
  deleted : Nat
  failed : Nat
  operations : List OperationRecord
  deriving DecidableEq, Repr

/-- The actions whose success increments `updated` in the counter switch of
SyncManager.executeSyncOperations.  Note that `update_notion_link` and
`update_github_branch` have no case there. -/
def updatedCounterActions : List String :=
  ["update_github_state", "update_notion_status", "update_notion_pr",
   "update_notion_pr_link", "clear_notion_pr"]

/-- The body of the for-loop of SyncManager.executeSyncOperations: record the
outcome and bump the matching counter. -/
def execStep (env : Env) (results : SyncResult) (operation : SyncOperation) :
    SyncResult :=
  match executeOperation env operation with
  | .ok result =>
    let results :=
      { results with operations := results.operations ++ [⟨operation, some result, none, true⟩] }
    if operation.action = "create" then
      { results with created := results.created + 1 }
    else if operation.action ∈ updatedCounterActions then
      { results with updated := results.updated + 1 }
    else if operation.action = "delete" then
      { results with deleted := results.deleted + 1 }
    else
      results
  | .error e =>
    { results with
      failed := results.failed + 1,
      operations := results.operations ++ [⟨operation, none, some e, false⟩] }

/-- SyncManager.executeSyncOperations: fold the loop body over the operation
list, starting from zero counters and an empty record list. -/
def executeSyncOperations (env : Env) (operations : List SyncOperation) :
    SyncResult :=
  operations.foldl (execStep env) ⟨0, 0, 0, 0, []⟩

/-! ### Executor bookkeeping helpers and their characterization -/

/-- Whether a single operation executes without throwing. -/
def opOk (env : Env) (operation : SyncOperation) : Bool :=
  match executeOperation env operation with
  | .ok _ => true
  | .error _ => false

/-- The record the executor pushes for one operation. -/
def recordForOp (env : Env) (operation : SyncOperation) : OperationRecord :=
  match executeOperation env operation with
  | .ok result => ⟨operation, some result, none, true⟩
  | .error e => ⟨operation, none, some e, false⟩

/-- Number of operations in the list that execute without throwing and whose
action satisfies the given test. -/
def succCount (env : Env) (p : SyncOperation → Bool)
    (ops : List SyncOperation) : Nat :=
  (ops.filter fun op => opOk env op && p op).length

/-- Number of operations in the list whose execution throws. -/
def failCount (env : Env) (ops : List SyncOperation) : Nat :=
  (ops.filter fun op => !opOk env op).length

/-! ### Concrete inputs used by witnesses and counterexamples -/

/-- A well-formed bug item: closed in Notion, modified at time 10. -/
def wBug1 : WorkItem :=
  ⟨some "CBUG-9", some "Crash on save", "Fixed", some "Bug", some "App",
   "bug", "notion-1", none, none, none, none, some 10⟩

/-- A matched GitHub issue that is still open, updated at time 5. -/
def wIssue1 : Issue :=
  ⟨"CBUG-9: Crash on save", "open", none, "https://g/i/1", 1, "o/r", some 5⟩

/-- Two open PRs with identical priority and identical updatedAt, differing
only in their url: an exact comparator tie. -/
def wPrA : PullRequest := ⟨"open", false, 100, "https://g/p/A", "o/r"⟩

def wPrB : PullRequest := ⟨"open", false, 100, "https://g/p/B", "o/r"⟩

/-- An older open PR and a newer merged PR: distinct priorities. -/
def wPrOpen : PullRequest := ⟨"open", false, 50, "https://g/p/open", "o/r"⟩

def wPrMerged : PullRequest := ⟨"closed", true, 200, "https://g/p/merged", "o/r"⟩

/-- A task item with no title (fails bug validation) that still carries a PR
status and has no branch. -/
def wTask : WorkItem :=
  ⟨some "TSK-1", none, "In Progress", none, none, "task", "notion-2",
   none, none, some "Open", none, none⟩

/-- A bug item with no title: fails validation. -/
def wBadBug : WorkItem :=
  ⟨some "CBUG-3", none, "Reported", some "Bug", some "App", "bug", "notion-3",
   none, none, none, none, none⟩

/-- An item with a stale PR status, no branch and no PRs. -/
def wClearItem : WorkItem :=
  ⟨some "TSK-5", some "Task", "In Progress", some "Task", some "App", "task",
   "notion-4", none, none, some "Open", none, none⟩

/-- An item whose stored PR status disagrees with its merged PR. -/
def wPrItem : WorkItem :=
  ⟨some "CBUG-7", some "Bug", "In Progress", some "Bug", some "App", "bug",
   "notion-5", none, none, some "Open", none, none⟩

/-- An environment in which every external call succeeds. -/
def allOkEnv : Env :=
  ⟨fun _ => .ok "o/r",
   fun _ _ _ => .ok wIssue1,
   fun _ _ _ => .ok (),
   fun _ _ _ => .ok (),
   fun _ _ => .ok (),
   fun _ _ => .ok (),
   fun _ _ => .ok (),
   fun _ _ => .ok (),
   fun _ _ => .ok (),
   fun _ _ => .ok (),
   fun _ _ _ => .ok (),
   fun _ _ _ => .ok (),
   fun _ _ => .ok ()⟩

/-- Every call succeeds except closing-and-locking an issue. -/
def envFailDelete : Env := { allOkEnv with ghDeleteIssue := fun _ _ => .error "boom" }

/-- Every call succeeds except posting a comment. -/
def envFailComment : Env :=
  { allOkEnv with ghAddComment := fun _ _ _ => .error "comment failed" }

/-- Every call succeeds except setting an issue state. -/
def envFailState : Env :=
  { allOkEnv with ghUpdateIssueState := fun _ _ _ => .error "nope" }

/-- A delete operation for the orphaned issue wIssue1. -/
def wDeleteOp : SyncOperation :=
  createSyncOperation "delete" none (some (OpTarget.issue wIssue1))
    "Issue exists in GitHub but corresponding item was deleted from Notion"

/-- A link-fix operation, one of the two actions the counter switch misses. -/
def wLinkOp : SyncOperation :=
  createSyncOperation "update_notion_link" (some wBug1) (some (OpTarget.issue wIssue1))
    "Notion item missing or has incorrect GitHub issue link"

/-- A state-update operation whose underlying call will be made to fail. -/
def wStateOp : SyncOperation :=
  createSyncOperation "update_github_state" (some wBug1) (some (OpTarget.issue wIssue1))
    "Notion status requires GitHub state change"

lemma execStep_of_ok {env : Env} {operation : SyncOperation} {r : OpResult}
    (acc : SyncResult) (h : executeOperation env operation = .ok r) :
    execStep env acc operation =
      ⟨acc.created + (if operation.action = "create" then 1 else 0),
       acc.updated + (if operation.action ∈ updatedCounterActions then 1 else 0),
       acc.deleted + (if operation.action = "delete" then 1 else 0),
       acc.failed,
       acc.operations ++ [⟨operation, some r, none, true⟩]⟩ := by
  unfold execStep
  rw [h]
  have hcd : "create" ∉ updatedCounterActions := by decide
  have hdd : "delete" ∉ updatedCounterActions := by decide
  by_cases h1 : operation.action = "create"
  · simp [h1, hcd]
  · by_cases h2 : operation.action ∈ updatedCounterActions
    · have h3 : ¬ operation.action = "delete" := by
        intro hd; rw [hd] at h2; exact hdd h2
      simp [h1, h2, h3]
    · by_cases h3 : operation.action = "delete"
      · simp [h1, h2, h3, hdd]
      · simp [h1, h2, h3]

lemma execStep_of_error {env : Env} {operation : SyncOperation} {e : String}
    (acc : SyncResult) (h : executeOperation env operation = .error e) :
    execStep env acc operation =
      ⟨acc.created, acc.updated, acc.deleted, acc.failed + 1,
       acc.operations ++ [⟨operation, none, some e, false⟩]⟩ := by
  unfold execStep
  rw [h]

/-- Full characterization of the executor fold: final counters are counts over
the input list and the record list is a map over it. -/
lemma foldl_execStep (env : Env) :
    ∀ (ops : List SyncOperation) (acc : SyncResult),
    ops.foldl (execStep env) acc =
      ⟨acc.created + succCount env (fun op => decide (op.action = "create")) ops,
       acc.updated + succCount env (fun op => decide (op.action ∈ updatedCounterActions)) ops,
       acc.deleted + succCount env (fun op => decide (op.action = "delete")) ops,
       acc.failed + failCount env ops,
       acc.operations ++ ops.map (recordForOp env)⟩ := by
  intro ops
  induction ops with
  | nil =>
    intro acc
    simp [succCount, failCount]
  | cons op ops ih =>
    intro acc
    rw [List.foldl_cons]
    cases h : executeOperation env op with
    | ok r =>
      rw [execStep_of_ok acc h, ih]
      have hok : opOk env op = true := by unfold opOk; rw [h]
      have hrec : recordForOp env op = ⟨op, some r, none, true⟩ := by
        unfold recordForOp; rw [h]
      simp only [succCount, failCount, List.filter_cons, hok, List.map_cons,
        Bool.true_and, Bool.not_true, SyncResult.mk.injEq, hrec]
      refine ⟨?_, ?_, ?_, ?_, ?_⟩
      · by_cases h1 : op.action = "create" <;> simp [h1] <;> omega
      · by_cases h2 : op.action ∈ updatedCounterActions <;> simp [h2] <;> omega
      · by_cases h3 : op.action = "delete" <;> simp [h3] <;> omega
      · simp
      · simp
    | error e =>
      rw [execStep_of_error acc h, ih]
      have hok : opOk env op = false := by unfold opOk; rw [h]
      have hrec : recordForOp env op = ⟨op, none, some e, false⟩ := by
        unfold recordForOp; rw [h]
      simp only [succCount, failCount, List.filter_cons, hok, List.map_cons,
        Bool.false_and, Bool.not_false, SyncResult.mk.injEq, hrec]
      refine ⟨?_, ?_, ?_, ?_, ?_⟩
      · simp
      · simp
      · simp
      · simp; omega
      · simp

/-- The executor result, in closed form. -/
lemma executeSyncOperations_eq (env : Env) (ops : List SyncOperation) :
    executeSyncOperations env ops =
      ⟨succCount env (fun op => decide (op.action = "create")) ops,
       succCount env (fun op => decide (op.action ∈ updatedCounterActions)) ops,
       succCount env (fun op => decide (op.action = "delete")) ops,
       failCount env ops,
       ops.map (recordForOp env)⟩ := by
  unfold executeSyncOperations
  rw [foldl_execStep]
  simp

/-! ### Claim theorems -/

/-- C1: when a bug and its matched issue disagree in both directions, the
planner emits exactly one status operation, `update_github_state` when the
Notion timestamp is at least the GitHub one (missing timestamps count as
epoch zero via `jsDate`), otherwise `update_notion_status`, and never both. -/
theorem c1_conflict_resolution (bug : WorkItem) (issue : Issue)
    (hg : issue.state ≠ mapNotionStatusToGitHubState bug.status)
    (hn : bug.status ≠ mapGitHubStateToNotionStatus issue.state bug.status) :
    (determineUpdateOperations bug issue).map (fun op => op.action) =
      [if jsDate bug.lastModified ≥ jsDate issue.updated_at
        then "update_github_state" else "update_notion_status"] := by
  simp only [determineUpdateOperations]
  rw [if_pos ⟨hg, hn⟩]
  by_cases h : jsDate bug.lastModified ≥ jsDate issue.updated_at
  · rw [if_pos h, if_pos h]; rfl
  · rw [if_neg h, if_neg h]; rfl

/-- C1 witness: the hypotheses of `c1_conflict_resolution` hold for the
concrete pair `wBug1`/`wIssue1` and the theorem applies there. -/
theorem c1_conflict_resolution_witness :
    wIssue1.state ≠ mapNotionStatusToGitHubState wBug1.status ∧
    wBug1.status ≠ mapGitHubStateToNotionStatus wIssue1.state wBug1.status ∧
    (determineUpdateOperations wBug1 wIssue1).map (fun op => op.action) =
      [if jsDate wBug1.lastModified ≥ jsDate wIssue1.updated_at
        then "update_github_state" else "update_notion_status"] :=
  ⟨by decide, by decide, c1_conflict_resolution wBug1 wIssue1 (by decide) (by decide)⟩

/-- C10: the executor produces exactly one outcome record per input
operation, in input order; it never drops or duplicates a record. -/
theorem c10_one_record_per_operation (env : Env) (ops : List SyncOperation) :
    (executeSyncOperations env ops).operations.map (fun rec => rec.op) = ops := by
  rw [executeSyncOperations_eq]
  induction ops with
  | nil => rfl
  | cons op ops ih =>
    have hop : (recordForOp env op).op = op := by
      unfold recordForOp
      cases executeOperation env op <;> rfl
    simp only [List.map_cons, hop, List.cons.injEq, true_and]
    exact ih

/-- C2 (amended): whenever executing an operation throws, the executor
increments `failed`, records that operation with `success := false` and the
error message, and still processes every other operation; delete operations
are the exception noted in the counterexample, since `deleteGitHubIssue`
catches its own errors and returns normally. -/
theorem c2_failure_isolated (env : Env) (ops : List SyncOperation)
    (i : Nat) (e : String) (hi : i < ops.length)
    (herr : executeOperation env (ops.get ⟨i, hi⟩) = .error e) :
    (executeSyncOperations env ops).failed = failCount env ops ∧
    (executeSyncOperations env ops).operations.length = ops.length ∧
    (executeSyncOperations env ops).operations.get? i =
      some ⟨ops.get ⟨i, hi⟩, none, some e, false⟩ := by
  rw [executeSyncOperations_eq]
  refine ⟨rfl, by simp, ?_⟩
  rw [List.get?_map, List.get?_eq_get hi]
  have h2 : recordForOp env (ops.get ⟨i, hi⟩) = ⟨ops.get ⟨i, hi⟩, none, some e, false⟩ := by
    unfold recordForOp
    rw [herr]
  simp only [Option.map_some', h2]

/-- C2 witness: with every call failing on issue-state updates, a singleton
batch containing `wStateOp` satisfies the hypotheses of
`c2_failure_isolated` and the conclusion holds there. -/
theorem c2_failure_isolated_witness :
    (executeSyncOperations envFailState [wStateOp]).failed =
      failCount envFailState [wStateOp] ∧
    (executeSyncOperations envFailState [wStateOp]).operations.length =
      [wStateOp].length ∧
    (executeSyncOperations envFailState [wStateOp]).operations.get? 0 =
      some ⟨[wStateOp].get ⟨0, by decide⟩, none, some "nope", false⟩ :=
  c2_failure_isolated envFailState [wStateOp] 0 "nope" (by decide) rfl

/-- C2 counterexample: a delete operation whose underlying close-and-lock
call fails is recorded with `success := true`, bumps `deleted`, and leaves
`failed` at zero, so a failing operation can be recorded as a success. -/
theorem c2_counterexample :
    envFailDelete.ghDeleteIssue wIssue1.repository wIssue1.githubId = .error "boom" ∧
    executeSyncOperations envFailDelete [wDeleteOp] =
      ⟨0, 0, 1, 0, [⟨wDeleteOp, some (OpResult.deleteRes false (some "boom")), none, true⟩]⟩ :=
  ⟨rfl, rfl⟩

lemma succCount_append_single (env : Env) (p : SyncOperation → Bool)
    (ops : List SyncOperation) (op : SyncOperation) :
    succCount env p (ops ++ [op]) =
      succCount env p ops + (if opOk env op && p op then 1 else 0) := by
  simp only [succCount, List.filter_append, List.filter_cons, List.filter_nil,
    List.length_append]
  split <;> simp

/-- C3 (amended): a successful operation increments `created` for action
`create`, `updated` for the five actions in `updatedCounterActions`, and
`deleted` for `delete`; a successful `update_notion_link` or
`update_github_branch` increments no counter at all. -/
theorem c3_counter_increments (env : Env) (ops : List SyncOperation)
    (op : SyncOperation) (hok : opOk env op = true) :
    (op.action = "create" →
      (executeSyncOperations env (ops ++ [op])).created =
        (executeSyncOperations env ops).created + 1) ∧
    (op.action ∈ updatedCounterActions →
      (executeSyncOperations env (ops ++ [op])).updated =
        (executeSyncOperations env ops).updated + 1) ∧
    (op.action = "delete" →
      (executeSyncOperations env (ops ++ [op])).deleted =
        (executeSyncOperations env ops).deleted + 1) ∧
    ((op.action = "update_notion_link" ∨ op.action = "update_github_branch") →
      (executeSyncOperations env (ops ++ [op])).created =
          (executeSyncOperations env ops).created ∧
      (executeSyncOperations env (ops ++ [op])).updated =
          (executeSyncOperations env ops).updated ∧
      (executeSyncOperations env (ops ++ [op])).deleted =
          (executeSyncOperations env ops).deleted) := by
  rw [executeSyncOperations_eq, executeSyncOperations_eq]
  simp only [succCount_append_single, hok, Bool.true_and]
  refine ⟨?_, ?_, ?_, ?_⟩
  · intro h
    have : op.action ∉ updatedCounterActions := by rw [h]; decide
    simp [h]
  · intro h
    simp [h]
  · intro h
    simp [h]
  · intro h
    rcases h with h | h <;>
      simp [h, updatedCounterActions]

/-- C3 witness: a successful delete in an all-success environment increments
exactly `deleted`, through `c3_counter_increments`. -/
theorem c3_counter_increments_witness :
    (executeSyncOperations allOkEnv ([] ++ [wDeleteOp])).deleted =
      (executeSyncOperations allOkEnv []).deleted + 1 :=
  (c3_counter_increments allOkEnv [] wDeleteOp rfl).2.2.1 rfl

/-- C3 counterexample: a successful `update_notion_link` operation increments
no counter, in particular not `updated` as the claim states. -/
theorem c3_counterexample :
    opOk allOkEnv wLinkOp = true ∧
    executeSyncOperations allOkEnv [wLinkOp] =
      ⟨0, 0, 0, 0, [⟨wLinkOp, some OpResult.simple, none, true⟩]⟩ :=
  ⟨rfl, rfl⟩

/-- C5 (amended): the delete handler first posts the explanatory comment;
when the comment succeeds, the close-and-lock call is issued; when the
comment fails, the close-and-lock call is NOT issued and the handler returns
normally with a `success := false` result carrying the error. -/
theorem c5_comment_gates_close (env : Env) (issue : Issue) :
    (∀ e, env.ghAddComment issue.repository issue.githubId deleteCommentText = .error e →
      deleteGitHubIssue env issue =
        (.ok (OpResult.deleteRes false (some e)),
         [Call.addComment issue.repository issue.githubId deleteCommentText])) ∧
    (env.ghAddComment issue.repository issue.githubId deleteCommentText = .ok () →
      (deleteGitHubIssue env issue).2 =
        [Call.addComment issue.repository issue.githubId deleteCommentText,
         Call.deleteIssue issue.repository issue.githubId]) := by
  constructor
  · intro e he
    unfold deleteGitHubIssue
    rw [he]
  · intro hok
    unfold deleteGitHubIssue
    rw [hok]
    cases env.ghDeleteIssue issue.repository issue.githubId <;> rfl

/-- C5 witness: with the comment call failing, `c5_comment_gates_close`
applies to `wIssue1` and pins down the handler result and trace. -/
theorem c5_comment_gates_close_witness :
    deleteGitHubIssue envFailComment wIssue1 =
      (.ok (OpResult.deleteRes false (some "comment failed")),
       [Call.addComment wIssue1.repository wIssue1.githubId deleteCommentText]) :=
  (c5_comment_gates_close envFailComment wIssue1).1 "comment failed" rfl

/-- C5 counterexample: when the comment step fails, the close-and-lock call
never happens, contradicting the claim that it still proceeds. -/
theorem c5_counterexample :
    envFailComment.ghAddComment wIssue1.repository wIssue1.githubId deleteCommentText =
      .error "comment failed" ∧
    ((deleteGitHubIssue envFailComment wIssue1).2.contains
      (Call.deleteIssue wIssue1.repository wIssue1.githubId)) = false ∧
    (deleteGitHubIssue envFailComment wIssue1).1 =
      .ok (OpResult.deleteRes false (some "comment failed")) :=
  ⟨rfl, by decide, rfl⟩

lemma prLE_iff (a b : PullRequest) :
    prLE a b ↔
      (getStatePriority b < getStatePriority a ∨
       (getStatePriority b = getStatePriority a ∧ b.updatedAt ≤ a.updatedAt)) := by
  unfold prLE prCompare
  set pa := getStatePriority a with hpa
  set pb := getStatePriority b with hpb
  by_cases h : pb - pa ≠ 0
  · rw [if_pos h]
    omega
  · rw [if_neg h]
    omega

lemma prLE_refl (a : PullRequest) : prLE a a := by
  rw [prLE_iff]
  omega

instance : IsTotal PullRequest prLE :=
  ⟨fun a b => by
    rw [prLE_iff, prLE_iff]
    omega⟩

instance : IsTrans PullRequest prLE :=
  ⟨fun a b c hab hbc => by
    rw [prLE_iff] at hab hbc ⊢
    omega⟩

lemma prLE_antisymm_key (a b : PullRequest) (h1 : prLE a b) (h2 : prLE b a) :
    getStatePriority a = getStatePriority b ∧ a.updatedAt = b.updatedAt := by
  rw [prLE_iff] at h1 h2
  omega

/-- Every element of the sorted list is below its head under `prLE`. -/
lemma head_minimal_of_sorted (x : PullRequest) (t : List PullRequest)
    (hs : List.Sorted prLE (x :: t)) :
    ∀ y, y ∈ x :: t → prLE x y := by
  intro y hy
  rcases List.mem_cons.mp hy with h | h
  · rw [h]
    exact prLE_refl x
  · exact List.rel_of_sorted_cons hs y h

/-- C4 (amended): when no two distinct PRs in the list share both state
priority and `updatedAt`, `getMostRelevantPR` is invariant under
permutations of its input (and returns `null` on the empty list). -/
theorem c4_most_relevant_pr_permutation_invariant
    (l1 l2 : List PullRequest) (hperm : l1.Perm l2)
    (hkeys : ∀ a ∈ l1, ∀ b ∈ l1,
      getStatePriority a = getStatePriority b → a.updatedAt = b.updatedAt → a = b) :
    getMostRelevantPR l1 = getMostRelevantPR l2 := by
  unfold getMostRelevantPR
  by_cases h1 : l1.isEmpty
  · have h1' : l1 = [] := List.isEmpty_iff.mp h1
    have h2' : l2 = [] := List.Perm.eq_nil (h1' ▸ hperm).symm
    rw [h1', h2']
  · have hne1 : l1 ≠ [] := fun h => h1 (h ▸ rfl)
    have hne2 : l2 ≠ [] := fun h => hne1 (List.Perm.eq_nil (h ▸ hperm))
    have h2 : ¬ l2.isEmpty := fun h => hne2 (List.isEmpty_iff.mp h)
    rw [if_neg (by simpa using h1), if_neg (by simpa using h2)]
    have hs1 : List.Sorted prLE (List.insertionSort prLE l1) :=
      List.sorted_insertionSort prLE l1
    have hs2 : List.Sorted prLE (List.insertionSort prLE l2) :=
      List.sorted_insertionSort prLE l2
    have hp1 : (List.insertionSort prLE l1).Perm l1 := List.perm_insertionSort prLE l1
    have hp2 : (List.insertionSort prLE l2).Perm l2 := List.perm_insertionSort prLE l2
    have hsne1 : List.insertionSort prLE l1 ≠ [] := fun h =>
      hne1 (List.Perm.eq_nil (h ▸ hp1).symm)
    have hsne2 : List.insertionSort prLE l2 ≠ [] := fun h =>
      hne2 (List.Perm.eq_nil (h ▸ hp2).symm)
    obtain ⟨x1, t1, e1⟩ := List.exists_cons_of_ne_nil hsne1
    obtain ⟨x2, t2, e2⟩ := List.exists_cons_of_ne_nil hsne2
    rw [e1, e2]
    have hx1l1 : x1 ∈ l1 := hp1.subset (by rw [e1]; exact List.mem_cons_self x1 t1)
    have hx2l2 : x2 ∈ l2 := hp2.subset (by rw [e2]; exact List.mem_cons_self x2 t2)
    have hx2l1 : x2 ∈ l1 := hperm.symm.subset hx2l2
    have hx1l2 : x1 ∈ l2 := hperm.subset hx1l1
    have h12 : prLE x1 x2 := by
      apply head_minimal_of_sorted x1 t1 (e1 ▸ hs1)
      rw [← e1]
      exact hp1.mem_iff.mpr hx2l1
    have h21 : prLE x2 x1 := by
      apply head_minimal_of_sorted x2 t2 (e2 ▸ hs2)
      rw [← e2]
      exact hp2.mem_iff.mpr hx1l2
    have hk := prLE_antisymm_key x1 x2 h12 h21
    have : x1 = x2 := hkeys x1 hx1l1 x2 hx2l1 hk.1 hk.2
    rw [this]
    rfl

/-- C4 witness: two PRs with distinct priorities, listed in both orders,
give the same most relevant PR via the amended theorem. -/
theorem c4_most_relevant_pr_witness :
    getMostRelevantPR [wPrOpen, wPrMerged] = getMostRelevantPR [wPrMerged, wPrOpen] :=
  c4_most_relevant_pr_permutation_invariant [wPrOpen, wPrMerged] [wPrMerged, wPrOpen]
    (List.Perm.swap wPrMerged wPrOpen []) (by decide)

/-- C4 counterexample: two open PRs with identical priority and identical
`updatedAt` but different urls; swapping the input order changes the result,
so the claimed permutation invariance fails on exact ties. -/
theorem c4_counterexample :
    ([wPrA, wPrB].Perm [wPrB, wPrA]) ∧
    getMostRelevantPR [wPrA, wPrB] ≠ getMostRelevantPR [wPrB, wPrA] :=
  ⟨List.Perm.swap wPrB wPrA [], by decide⟩

/-- Every operation emitted by the PR-sync step carries the item as source. -/
lemma determinePRSyncOperations_source (item : WorkItem) (prs : List PullRequest) :
    ∀ op ∈ determinePRSyncOperations item prs, op.source = some item := by
  intro op hop
  unfold determinePRSyncOperations at hop
  split at hop
  · rcases List.mem_append.mp hop with h1 | h1
    · split at h1
      · rw [List.mem_singleton] at h1
        subst h1
        rfl
      · exact absurd h1 (List.not_mem_nil op)
    · split at h1
      · rw [List.mem_singleton] at h1
        subst h1
        rfl
      · exact absurd h1 (List.not_mem_nil op)
  · split at hop
    · split at hop
      · exact absurd hop (List.not_mem_nil op)
      · rw [List.mem_singleton] at hop
        subst hop
        rfl
    · exact absurd hop (List.not_mem_nil op)

/-- Every operation emitted by the status reconciliation carries the bug as
source. -/
lemma determineUpdateOperations_source (bug : WorkItem) (issue : Issue) :
    ∀ op ∈ determineUpdateOperations bug issue, op.source = some bug := by
  intro op hop
  simp only [determineUpdateOperations] at hop
  split at hop
  · split at hop <;> (rw [List.mem_singleton] at hop; subst hop; rfl)
  · split at hop
    · rw [List.mem_singleton] at hop
      subst hop
      rfl
    · split at hop
      · rw [List.mem_singleton] at hop
        subst hop
        rfl
      · exact absurd hop (List.not_mem_nil op)

/-- Every operation contributed by one per-item loop iteration carries that
item as source. -/
lemma planForItem_source (issueMap : List (String × Issue))
    (prMap : List (String × List PullRequest)) (itemId : String) (item : WorkItem) :
    ∀ op ∈ planForItem issueMap prMap itemId item, op.source = some item := by
  intro op hop
  unfold planForItem at hop
  split at hop
  · exact determinePRSyncOperations_source item _ op hop
  · split at hop
    · exact absurd hop (List.not_mem_nil op)
    · rcases List.mem_append.mp hop with h1 | h1
      · split at h1
        · rw [List.mem_singleton] at h1
          subst h1
          rfl
        · rcases List.mem_append.mp h1 with h2 | h2
          · rcases List.mem_append.mp h2 with h3 | h3
            · exact determineUpdateOperations_source item _ op h3
            · split at h3
              · rw [List.mem_singleton] at h3
                subst h3
                rfl
              · exact absurd h3 (List.not_mem_nil op)
          · split at h2
            · rw [List.mem_singleton] at h2
              subst h2
              rfl
            · exact absurd h2 (List.not_mem_nil op)
      · exact determinePRSyncOperations_source item _ op h1

/-- C6 (amended): a bug-like item that fails validation contributes no
operation: its loop iteration is empty, and no emitted operation of the
whole plan carries it as source.  (Task-like items bypass validation, see
the counterexample.) -/
theorem c6_invalid_bug_items_skipped (bugMap : List (String × WorkItem))
    (issueMap : List (String × Issue)) (prMap : List (String × List PullRequest))
    (item : WorkItem) (htask : item.itemType ≠ "task")
    (hvalid : (validateBugForSync item).isValid = false) :
    (∀ itemId, planForItem issueMap prMap itemId item = []) ∧
    (∀ op ∈ determineSyncOperations bugMap issueMap prMap, op.source ≠ some item) := by
  have hempty : ∀ itemId, planForItem issueMap prMap itemId item = [] := by
    intro itemId
    unfold planForItem
    rw [if_neg htask, if_pos (by rw [hvalid]; rfl)]
  refine ⟨hempty, ?_⟩
  intro op hop hsrc
  unfold determineSyncOperations at hop
  rcases List.mem_append.mp hop with h1 | h1
  · rcases List.mem_flatMap.mp h1 with ⟨p, hp, hopin⟩
    have hsp := planForItem_source issueMap prMap p.1 p.2 op hopin
    have : p.2 = item := by
      rw [hsp] at hsrc
      exact Option.some.inj hsrc
    rw [this, hempty p.1] at hopin
    exact absurd hopin (List.not_mem_nil op)
  · rcases List.mem_flatMap.mp h1 with ⟨p, hp, hopin⟩
    split at hopin
    · exact absurd hopin (List.not_mem_nil op)
    · have : op.source = none := by
        rcases List.mem_singleton.mp hopin with h
        rw [h]
        rfl
      rw [this] at hsrc
      exact Option.noConfusion hsrc

/-- C6 witness: the invalid bug `wBadBug` contributes no operations, via
`c6_invalid_bug_items_skipped`. -/
theorem c6_invalid_bug_items_skipped_witness :
    planForItem [] [] "CBUG-3" wBadBug = [] :=
  (c6_invalid_bug_items_skipped [("CBUG-3", wBadBug)] [] [] wBadBug
    (by decide) (by decide)).1 "CBUG-3"

/-- C6 counterexample: a task-like item missing its title (so it fails the
required-field validation) still produces a `clear_notion_pr` operation, so
the claim does not hold for task-like items. -/
theorem c6_counterexample :
    (validateBugForSync wTask).isValid = false ∧
    determineSyncOperations [("TSK-1", wTask)] [] [] =
      [createSyncOperation "clear_notion_pr" (some wTask) none
        "No pull request found, clearing PR status"] :=
  ⟨rfl, rfl⟩

/-- C8: for the selected most relevant PR, the PR-state translation yields
"Merged" when merged, "Open" when the state is open, else "Closed"; and the
planner emits exactly one `update_notion_pr` operation when the expected
status differs from the stored one, none otherwise. -/
theorem c8_pr_status_translation (item : WorkItem) (prs : List PullRequest)
    (pr : PullRequest) (hmr : getMostRelevantPR prs = some pr) :
    mapGitHubPRStateToNotionStatus pr =
      (if pr.merged then "Merged" else if pr.state = "open" then "Open" else "Closed") ∧
    (determinePRSyncOperations item prs).countP
        (fun op => decide (op.action = "update_notion_pr")) =
      (if item.pullRequestStatus ≠ some (mapGitHubPRStateToNotionStatus pr)
       then 1 else 0) := by
  refine ⟨rfl, ?_⟩
  unfold determinePRSyncOperations
  rw [hmr, List.countP_append]
  by_cases h : item.pullRequestStatus = some (mapGitHubPRStateToNotionStatus pr)
  · have hstat : ¬ needsPRStatusUpdate item.pullRequestStatus pr = true := by
      simp [needsPRStatusUpdate, h]
    have hrhs : ¬ item.pullRequestStatus ≠ some (mapGitHubPRStateToNotionStatus pr) := by
      simpa using h
    rw [if_neg hstat, if_neg hrhs]
    split
    · simp +decide [createSyncOperation]
    · simp
  · have hstat : needsPRStatusUpdate item.pullRequestStatus pr = true := by
      simp [needsPRStatusUpdate, h]
    rw [if_pos hstat, if_pos h]
    split
    · simp +decide [createPRSyncOperation, createSyncOperation]
    · simp +decide [createPRSyncOperation, createSyncOperation]

/-- C8 witness: the stored status "Open" disagrees with the merged PR
`wPrMerged`, and `c8_pr_status_translation` applies to the singleton list. -/
theorem c8_pr_status_translation_witness :
    mapGitHubPRStateToNotionStatus wPrMerged =
      (if wPrMerged.merged then "Merged"
       else if wPrMerged.state = "open" then "Open" else "Closed") ∧
    (determinePRSyncOperations wPrItem [wPrMerged]).countP
        (fun op => decide (op.action = "update_notion_pr")) =
      (if wPrItem.pullRequestStatus ≠ some (mapGitHubPRStateToNotionStatus wPrMerged)
       then 1 else 0) :=
  c8_pr_status_translation wPrItem [wPrMerged] wPrMerged (by decide)

/-- C9: for an item with no PRs, a set PR status different from "None" leads
to exactly one `clear_notion_pr` operation when the branch URL is empty and
to no operation at all when a branch URL is present. -/
theorem c9_clear_pr_gated_on_branch (item : WorkItem)
    (hstatus : truthy item.pullRequestStatus = true)
    (hnone : item.pullRequestStatus ≠ some "None") :
    determinePRSyncOperations item [] =
      (if truthy item.branchUrl then []
       else [createSyncOperation "clear_notion_pr" (some item) none
              "No pull request found, clearing PR status"]) := by
  have hred : determinePRSyncOperations item [] =
      (if (truthy item.pullRequestStatus &&
            decide (item.pullRequestStatus ≠ some "None")) = true then
        (if truthy item.branchUrl = true then []
         else [createSyncOperation "clear_notion_pr" (some item) none
                "No pull request found, clearing PR status"])
      else []) := rfl
  rw [hred, if_pos (by simp [hstatus, hnone])]

/-- C9 witness: `wClearItem` has status "Open", no branch and no PRs, and
the amended theorem yields its single clear operation. -/
theorem c9_clear_pr_gated_on_branch_witness :
    determinePRSyncOperations wClearItem [] =
      (if truthy wClearItem.branchUrl then []
       else [createSyncOperation "clear_notion_pr" (some wClearItem) none
              "No pull request found, clearing PR status"]) :=
  c9_clear_pr_gated_on_branch wClearItem (by decide) (by decide)

lemma stripPre_eq_some_iff : ∀ (p l r : List Char), stripPre p l = some r ↔ l = p ++ r := by
  intro p
  induction p with
  | nil =>
    intro l r
    simp [stripPre]
  | cons c p ih =>
    intro l r
    cases l with
    | nil => simp [stripPre]
    | cons d l =>
      by_cases h : d = c
      · subst h
        simp [stripPre, ih]
      · simp [stripPre, h]

lemma takeWhile_all_append {p : Char → Bool} : ∀ (ds r : List Char),
    (∀ c ∈ ds, p c = true) → (∀ c cs, r = c :: cs → p c = false) →
    (ds ++ r).takeWhile p = ds ∧ (ds ++ r).dropWhile p = r := by
  intro ds
  induction ds with
  | nil =>
    intro r _ hr
    cases r with
    | nil => simp
    | cons c cs =>
      have hc := hr c cs rfl
      simp [List.takeWhile_cons, List.dropWhile_cons, hc]
  | cons d ds ih =>
    intro r hds hr
    have hd : p d = true := hds d (List.mem_cons_self d ds)
    have hrec := ih r (fun c hc => hds c (List.mem_cons_of_mem d hc)) hr
    simp [List.takeWhile_cons, List.dropWhile_cons, hd, hrec.1, hrec.2]

lemma wsPlusBody_space_body (rest : List Char) (hne : rest ≠ [])
    (hnl : ∀ c ∈ rest, c ≠ '\n') : wsPlusBody (' ' :: rest) = true := by
  show (isJsSpace ' ' && spacesThenBody rest) = true
  have h1 : isJsSpace ' ' = true := by decide
  rw [h1, Bool.true_and]
  cases rest with
  | nil => exact absurd rfl hne
  | cons c cs =>
    show (dotPlusEnd (c :: cs) || (isJsSpace c && spacesThenBody cs)) = true
    have h2 : dotPlusEnd (c :: cs) = true := by
      unfold dotPlusEnd
      simp only [List.isEmpty_cons, Bool.not_false, Bool.true_and]
      rw [List.all_eq_true]
      intro x hx
      simpa using hnl x hx
    rw [h2, Bool.true_or]

lemma append_dash_cancel : ∀ (a : List Char), '-' ∉ a → ∀ (b : List Char), '-' ∉ b →
    ∀ x y, a ++ '-' :: x = b ++ '-' :: y → a = b ∧ x = y := by
  intro a
  induction a with
  | nil =>
    intro _ b hb x y h
    cases b with
    | nil =>
      simp only [List.nil_append] at h
      exact ⟨rfl, List.cons.inj h |>.2⟩
    | cons d bs =>
      simp only [List.nil_append, List.cons_append, List.cons.injEq] at h
      exact absurd (h.1 ▸ List.mem_cons_self d bs) hb
  | cons c as ih =>
    intro ha b hb x y h
    cases b with
    | nil =>
      simp only [List.cons_append, List.nil_append, List.cons.injEq] at h
      exact absurd (h.1 ▸ List.mem_cons_self c as) (h.1 ▸ ha)
    | cons d bs =>
      simp only [List.cons_append, List.cons.injEq] at h
      have hrec := ih (fun hm => ha (List.mem_cons_of_mem c hm)) bs
        (fun hm => hb (List.mem_cons_of_mem d hm)) x y h.2
      exact ⟨by rw [h.1, hrec.1], hrec.2⟩

lemma parseIdColonForm_pos (pre ds rest : List Char) (hds : ds ≠ [])
    (hdig : ∀ c ∈ ds, c.isDigit = true) (hrest : rest ≠ [])
    (hnl : ∀ c ∈ rest, c ≠ '\n') :
    parseIdColonForm pre (pre ++ (ds ++ ':' :: ' ' :: rest)) = some (pre ++ ds) := by
  have hstrip : stripPre pre (pre ++ (ds ++ ':' :: ' ' :: rest)) =
      some (ds ++ ':' :: ' ' :: rest) := (stripPre_eq_some_iff _ _ _).mpr rfl
  have htw := takeWhile_all_append (p := Char.isDigit) ds (':' :: ' ' :: rest) hdig
    (fun c cs h => by cases h; decide)
  have hdsE : ds.isEmpty = false := by
    cases ds with
    | nil => exact absurd rfl hds
    | cons a as => rfl
  unfold parseIdColonForm
  rw [hstrip]
  simp only [htw.1, htw.2, hdsE, Bool.false_eq_true, if_false]
  rw [wsPlusBody_space_body rest hrest hnl]
  rfl

lemma parseIdColonForm_strip_none (pre l : List Char) (h : stripPre pre l = none) :
    parseIdColonForm pre l = none := by
  unfold parseIdColonForm
  rw [h]

lemma stripPre_dash_none (core : List Char) (P z : List Char) (hP : '-' ∉ P)
    (hcore : '-' ∉ core) (hne : P ≠ core) :
    stripPre (core ++ ['-']) (P ++ '-' :: z) = none := by
  cases h : stripPre (core ++ ['-']) (P ++ '-' :: z) with
  | none => rfl
  | some r =>
    rw [stripPre_eq_some_iff] at h
    have h2 : P ++ '-' :: z = core ++ '-' :: r := by
      rw [h, List.append_assoc]
      rfl
    exact absurd (append_dash_cancel P hP core hcore z r h2).1 hne

lemma parseBracketForm_head_ne (c : Char) (l : List Char) (h : ¬ c = '[') :
    parseBracketForm (c :: l) = none := by
  unfold parseBracketForm
  split
  · rename_i r heq
    exact absurd (List.cons.inj heq).1 h
  · rfl

lemma parseBracketForm_pos (w ds rest : List Char) (hw : w ≠ [])
    (hword : ∀ c ∈ w, isJsWord c = true) (hds : ds ≠ [])
    (hdig : ∀ c ∈ ds, c.isDigit = true) (hrest : rest ≠ [])
    (hnl : ∀ c ∈ rest, c ≠ '\n') :
    parseBracketForm ('[' :: (w ++ ']' :: '/' :: (cbugLit ++ (ds ++ ' ' :: rest)))) =
      some (cbugLit ++ ds) := by
  have htw := takeWhile_all_append (p := isJsWord) w
    (']' :: '/' :: (cbugLit ++ (ds ++ ' ' :: rest))) hword
    (fun c cs h => by cases h; decide)
  have hwE : w.isEmpty = false := by
    cases w with
    | nil => exact absurd rfl hw
    | cons a as => rfl
  have hstrip : stripPre cbugLit (cbugLit ++ (ds ++ ' ' :: rest)) =
      some (ds ++ ' ' :: rest) := (stripPre_eq_some_iff _ _ _).mpr rfl
  have htd := takeWhile_all_append (p := Char.isDigit) ds (' ' :: rest) hdig
    (fun c cs h => by cases h; decide)
  have hdsE : ds.isEmpty = false := by
    cases ds with
    | nil => exact absurd rfl hds
    | cons a as => rfl
  unfold parseBracketForm
  simp only [htw.1, htw.2, hwE, Bool.false_eq_true, if_false, hstrip, htd.1, htd.2,
    hdsE]
  rw [wsPlusBody_space_body rest hrest hnl]
  rfl

lemma extractCore_cbug (l id : List Char) (h : parseIdColonForm cbugLit l = some id) :
    extractCore l = some id := by
  unfold extractCore
  rw [h]

lemma extractCore_tsk (l id : List Char) (h1 : parseIdColonForm cbugLit l = none)
    (h2 : parseIdColonForm tskLit l = some id) : extractCore l = some id := by
  unfold extractCore
  rw [h1, h2]

lemma extractCore_bracket (l : List Char) (h1 : parseIdColonForm cbugLit l = none)
    (h2 : parseIdColonForm tskLit l = none) : extractCore l = parseBracketForm l := by
  unfold extractCore
  rw [h1, h2]

/-- C7 (amended): the colon form is recognized only for the IDs
`CBUG-<digits>` and `TSK-<digits>`; the bracket form only for
`[<word>]/CBUG-<digits>`; a title starting with any other all-uppercase
prefix followed by a hyphen (for example `ABC-7: ...`) yields `null`, and
extraction is total, never an error. -/
theorem c7_extract_id_patterns :
    (∀ ds rest : List Char, ds ≠ [] → (∀ c ∈ ds, c.isDigit = true) →
      rest ≠ [] → (∀ c ∈ rest, c ≠ '\n') →
      extractBugIdFromTitle ⟨cbugLit ++ (ds ++ ':' :: ' ' :: rest)⟩ =
          some ⟨cbugLit ++ ds⟩ ∧
        extractBugIdFromTitle ⟨tskLit ++ (ds ++ ':' :: ' ' :: rest)⟩ =
          some ⟨tskLit ++ ds⟩) ∧
    (∀ w ds rest : List Char, w ≠ [] → (∀ c ∈ w, isJsWord c = true) →
      ds ≠ [] → (∀ c ∈ ds, c.isDigit = true) →
      rest ≠ [] → (∀ c ∈ rest, c ≠ '\n') →
      extractBugIdFromTitle ⟨'[' :: (w ++ ']' :: '/' :: (cbugLit ++ (ds ++ ' ' :: rest)))⟩ =
        some ⟨cbugLit ++ ds⟩) ∧
    (∀ P z : List Char, P ≠ [] → (∀ c ∈ P, c.isUpper = true) →
      P ≠ ['C', 'B', 'U', 'G'] → P ≠ ['T', 'S', 'K'] →
      extractBugIdFromTitle ⟨P ++ '-' :: z⟩ = none) := by
  refine ⟨?_, ?_, ?_⟩
  · intro ds rest hds hdig hrest hnl
    constructor
    · show (extractCore (cbugLit ++ (ds ++ ':' :: ' ' :: rest))).map String.mk = _
      rw [extractCore_cbug _ _ (parseIdColonForm_pos cbugLit ds rest hds hdig hrest hnl)]
      rfl
    · show (extractCore (tskLit ++ (ds ++ ':' :: ' ' :: rest))).map String.mk = _
      have h1 : parseIdColonForm cbugLit (tskLit ++ (ds ++ ':' :: ' ' :: rest)) = none :=
        parseIdColonForm_strip_none _ _ rfl
      rw [extractCore_tsk _ _ h1 (parseIdColonForm_pos tskLit ds rest hds hdig hrest hnl)]
      rfl
  · intro w ds rest hw hword hds hdig hrest hnl
    show (extractCore ('[' :: (w ++ ']' :: '/' :: (cbugLit ++ (ds ++ ' ' :: rest))))).map
        String.mk = _
    have h1 : parseIdColonForm cbugLit
        ('[' :: (w ++ ']' :: '/' :: (cbugLit ++ (ds ++ ' ' :: rest)))) = none :=
      parseIdColonForm_strip_none _ _ rfl
    have h2 : parseIdColonForm tskLit
        ('[' :: (w ++ ']' :: '/' :: (cbugLit ++ (ds ++ ' ' :: rest)))) = none :=
      parseIdColonForm_strip_none _ _ rfl
    rw [extractCore_bracket _ h1 h2,
      parseBracketForm_pos w ds rest hw hword hds hdig hrest hnl]
    rfl
  · intro P z hne hup hc ht
    have hdash : '-' ∉ P := fun hm => absurd (hup '-' hm) (by decide)
    have h1 : parseIdColonForm cbugLit (P ++ '-' :: z) = none :=
      parseIdColonForm_strip_none _ _
        (stripPre_dash_none ['C', 'B', 'U', 'G'] P z hdash (by decide) hc)
    have h2 : parseIdColonForm tskLit (P ++ '-' :: z) = none :=
      parseIdColonForm_strip_none _ _
        (stripPre_dash_none ['T', 'S', 'K'] P z hdash (by decide) ht)
    show (extractCore (P ++ '-' :: z)).map String.mk = none
    rw [extractCore_bracket _ h1 h2]
    cases P with
    | nil => exact absurd rfl hne
    | cons c cs =>
      have hcup : c.isUpper = true := hup c (List.mem_cons_self c cs)
      have hcb : ¬ c = '[' := fun h => absurd (h ▸ hcup) (by decide)
      rw [List.cons_append, parseBracketForm_head_ne c _ hcb]
      rfl

/-- C7 witness: `c7_extract_id_patterns` instantiated on concrete titles of
each of the four shapes. -/
theorem c7_extract_id_patterns_witness :
    extractBugIdFromTitle ⟨cbugLit ++ (['1', '2'] ++ ':' :: ' ' :: ['x'])⟩ =
        some ⟨cbugLit ++ ['1', '2']⟩ ∧
    extractBugIdFromTitle ⟨tskLit ++ (['3'] ++ ':' :: ' ' :: ['y'])⟩ =
        some ⟨tskLit ++ ['3']⟩ ∧
    extractBugIdFromTitle
        ⟨'[' :: (['A', 'p', 'p'] ++ ']' :: '/' :: (cbugLit ++ (['4'] ++ ' ' :: ['z'])))⟩ =
      some ⟨cbugLit ++ ['4']⟩ ∧
    extractBugIdFromTitle ⟨['Q', 'Q'] ++ '-' :: ['1']⟩ = none :=
  ⟨(c7_extract_id_patterns.1 ['1', '2'] ['x'] (by decide) (by decide) (by decide)
      (by decide)).1,
   (c7_extract_id_patterns.1 ['3'] ['y'] (by decide) (by decide) (by decide)
      (by decide)).2,
   c7_extract_id_patterns.2.1 ['A', 'p', 'p'] ['4'] ['z'] (by decide) (by decide)
     (by decide) (by decide) (by decide) (by decide),
   c7_extract_id_patterns.2.2 ['Q', 'Q'] ['1'] (by decide) (by decide) (by decide)
     (by decide)⟩

/-- C7 counterexample: an uppercase ID with a prefix other than CBUG or TSK,
in exactly the claimed colon form, yields `null` instead of the ID; the old
bracket form also rejects TSK IDs. -/
theorem c7_counterexample :
    extractBugIdFromTitle "ABC-7: Fix crash" = none ∧
    extractBugIdFromTitle "ABC-7: Fix crash" ≠ some "ABC-7" ∧
    extractBugIdFromTitle "[Fix]/TSK-2 Title" = none :=
  ⟨by decide, by decide, by decide⟩
